import Mathlib

/-!
Shallow embedding of the static-site build pipeline in `scripts/build.py`
(functions `export_html_wasm`, `generate_index`, `main`), together with
proofs about the claims of the specification.

Modelling conventions:
* Python strings are Lean `String`s; `str.replace` (which substitutes every
  non-overlapping occurrence, left to right) is modelled by `pyReplace`;
  `str.title` by `pyTitle`; Python string comparison (lexicographic by code
  point) by `lexLe` on `List Char`.
* `pathlib.Path(x).name` is modelled by `fileName`, the part of the path
  after the last slash (the paths produced by discovery are plain relative
  slash-separated paths, for which this coincides with `pathlib`).
* Filesystem and subprocess effects are passed in explicitly as environment
  records (`ExportEnv`, `GenEnv`, `MainEnv`): each field records whether a
  given external operation raises and with which message.  A Python
  exception escaping a function is an `Except.error`; a normal return is
  `Except.ok`.
* `list.sort(reverse=True, key=lambda x: Path(x).name)` is a stable
  descending sort by filename.  Stable sorting by a total preorder has a
  unique result, so it is modelled by `List.insertionSort` (also stable)
  with the relation `descByName x y` = "filename of `y` is ≤ filename of
  `x`": an element is inserted before the first already-placed element
  whose key is ≤ its own, which keeps ties in original order exactly as
  CPython's stable sort does.
-/

/-- One step of Python `str.replace`: `pyRepAux pat rep 0 l` scans `l` left to
right; at each position, if `pat` matches there, it emits `rep` and skips the
matched characters (the `skip` counter consumes them one at a time), otherwise
it copies one character.  This is the replace-every-occurrence semantics of
Python `str.replace` (for nonempty `pat`, the only patterns used here). -/
def pyRepAux (pat rep : List Char) : Nat → List Char → List Char
  | _, [] => []
  | skip + 1, _ :: cs => pyRepAux pat rep skip cs
  | 0, c :: cs =>
    if pat.isPrefixOf (c :: cs) then rep ++ pyRepAux pat rep (pat.length - 1) cs
    else c :: pyRepAux pat rep 0 cs

/-- Python `s.replace(pat, rep)` for nonempty `pat`. -/
def pyReplace (s pat rep : String) : String :=
  String.mk (pyRepAux pat.data rep.data 0 s.data)

/-- `pathlib.Path(p).name`: the final component of a slash-separated path. -/
def fileName (p : String) : String :=
  String.mk ((p.data.reverse.takeWhile (fun c => c != '/')).reverse)

/-- `re.sub(r"^\d{4}-\d{2}-\d{2}-", "", s)`: strip one leading `YYYY-MM-DD-`
prefix if present (ASCII digits; the anchored pattern can only match once). -/
def stripDate (s : String) : String :=
  match s.data with
  | y1 :: y2 :: y3 :: y4 :: h1 :: m1 :: m2 :: h2 :: d1 :: d2 :: h3 :: rest =>
    if y1.isDigit && y2.isDigit && y3.isDigit && y4.isDigit && h1 == '-'
        && m1.isDigit && m2.isDigit && h2 == '-'
        && d1.isDigit && d2.isDigit && h3 == '-'
    then String.mk rest
    else s
  | _ => s

/-- Python `str.title` on ASCII text: a character is uppercased when the
previous character is not a (cased) letter, and lowercased otherwise. -/
def pyTitleAux : Bool → List Char → List Char
  | _, [] => []
  | prevCased, c :: cs =>
    (if prevCased then c.toLower else c.toUpper) :: pyTitleAux c.isAlpha cs

/-- Python `s.title()`. -/
def pyTitle (s : String) : String :=
  String.mk (pyTitleAux false s.data)

/-- Python string `<=`: lexicographic comparison by code point. -/
def lexLe : List Char → List Char → Bool
  | [], _ => true
  | _ :: _, [] => false
  | a :: as, b :: bs =>
    if a.toNat < b.toNat then true
    else if b.toNat < a.toNat then false
    else lexLe as bs

/-- The sort relation of `all_notebooks.sort(reverse=True, key=lambda x:
Path(x).name)`: `x` is placed before `y` when the filename of `y` is ≤ the
filename of `x` (descending, stable on ties). -/
def descByName (x y : String) : Prop :=
  lexLe (fileName y).data (fileName x).data = true

instance descByNameDecidable : DecidableRel descByName :=
  fun x y => inferInstanceAs (Decidable (lexLe (fileName y).data (fileName x).data = true))

/-- The sorted notebook list (line 76 of `build.py`). -/
def pySortNotebooks (l : List String) : List String :=
  List.insertionSort descByName l

/-- One entry of the `notebooks:` mapping in `notebook_metadata.yml`:
optional `title`, `description`, `image`. -/
structure NotebookMeta where
  title : Option String
  description : Option String
  image : Option String
deriving DecidableEq

/-- The loaded `notebooks` mapping, as an association list (Python dict). -/
abbrev MetaStore := List (String × NotebookMeta)

/-- `notebook_metadata.get(key, {})` followed by field lookup with defaults. -/
def lookupMeta (store : MetaStore) (key : String) : NotebookMeta :=
  (store.lookup key).getD ⟨none, none, none⟩

/-- `meta.get("title", key.replace("_", " ").title())` (line 112). -/
def cardTitle (store : MetaStore) (key : String) : String :=
  (lookupMeta store key).title.getD (pyTitle (pyReplace key "_" " "))

/-- `meta.get("description", "")` (line 113). -/
def cardDescription (store : MetaStore) (key : String) : String :=
  (lookupMeta store key).description.getD ""

/-- `meta.get("image", "")` (line 114). -/
def cardImage (store : MetaStore) (key : String) : String :=
  (lookupMeta store key).image.getD ""

/-- `Path(notebook).name.replace(".py", "")` (line 106). -/
def nb_filename (notebook : String) : String :=
  pyReplace (fileName notebook) ".py" ""

/-- The metadata lookup key of a document (line 108). -/
def displayKey (notebook : String) : String :=
  stripDate (nb_filename notebook)

/-- `notebook.replace(".py", ".html")`, the card link target (line 118). -/
def cardLink (notebook : String) : String :=
  pyReplace notebook ".py" ".html"

/-- The card-opening write (lines 117-120): link plus class attribute. -/
def cardOpen (notebook : String) : String :=
  "      <a href=\"" ++ cardLink notebook
    ++ "\" class=\"block w-full p-6 border border-[#5c6370] rounded transition duration-200 hover:bg-[#3E4451] max-w-xl mx-auto\">\n"

/-- The remaining writes of one card (lines 123-140): flex container, title,
optional description, optional image.  Python `if description:`/`if image:`
is emptiness of the resolved string. -/
def cardBody (store : MetaStore) (notebook : String) : String :=
  let key := displayKey notebook
  let title := cardTitle store key
  let description := cardDescription store key
  let image := cardImage store key
  "        <div class=\"flex items-start space-x-4\">\n"
    ++ "          <div>\n"
    ++ ("            <h3 class=\"text-2xl font-semibold mb-2 text-[#61afef]\">" ++ title ++ "</h3>\n")
    ++ (if description == "" then ""
        else "            <p class=\"text-[#abb2bf]\">" ++ description ++ "</p>\n")
    ++ "          </div>\n"
    ++ (if image == "" then ""
        else "          <img src=\"" ++ image ++ "\" alt=\"" ++ title
          ++ "\" class=\"w-32 h-auto rounded\" />\n")
    ++ "        </div>\n"
    ++ "      </a>\n"

/-- The full markup written for one notebook (lines 105-140). -/
def cardHtml (store : MetaStore) (notebook : String) : String :=
  cardOpen notebook ++ cardBody store notebook

/-- `BLOG_TITLE` (line 12). -/
def BLOG_TITLE : String := "Crazy Treyn Blog"

/-- `BLOG_SUBTITLE` (line 13). -/
def BLOG_SUBTITLE : String := "A different kind of Data Analytics blog."

/-- The fixed page header written before the cards (lines 84-102). -/
def indexHeader : String :=
  "<!DOCTYPE html>\n<html lang=\"en\">\n  <head>\n    <meta charset=\"UTF-8\" />\n    <meta name=\"viewport\" content=\"width=device-width, initial-scale=1.0\" />\n    <title>"
    ++ BLOG_TITLE
    ++ "</title>\n    <!-- Tailwind CSS -->\n    <script src=\"https://cdn.tailwindcss.com\"></script>\n  </head>\n  <body class=\"bg-[#282c34] text-[#abb2bf] font-sans p-8\">\n    <div class=\"max-w-4xl mx-auto\">\n      <div class=\"mb-8 text-center\">\n        <!-- Manually set blog title and subtitle -->\n        <h1 class=\"text-3xl font-bold mb-2 text-[#abb2bf]\">"
    ++ BLOG_TITLE
    ++ "</h1>\n        <p class=\"text-[#5c6370]\">"
    ++ BLOG_SUBTITLE
    ++ "</p>\n      </div>\n      <div class=\"grid gap-4 grid-cols-1\">\n"

/-- The fixed page footer written after the cards (lines 143-145). -/
def indexFooter : String :=
  "      </div>\n    </div>\n  </body>\n</html>"

/-- The card fragments, one per notebook in order (the loop at line 105). -/
def indexCards (store : MetaStore) (notebooks : List String) : List String :=
  notebooks.map (cardHtml store)

/-- The complete `index.html` content for a given (already sorted) notebook
list: header, the cards in list order, footer. -/
def indexHtml (store : MetaStore) (notebooks : List String) : String :=
  indexHeader ++ String.join (indexCards store notebooks) ++ indexFooter

/-- A Python exception deriving from `Exception`, as raised inside
`export_html_wasm`: an `OSError` from `os.makedirs`, a
`subprocess.CalledProcessError` from `subprocess.run(..., check=True)` on a
non-zero exit (carrying the captured stderr), or any other exception raised
while invoking the renderer. -/
inductive PyExc where
  | osError (msg : String)
  | calledProcessError (stderr : String)
  | otherExc (msg : String)
deriving DecidableEq

/-- The text interpolated into the diagnostic print for an exception. -/
def PyExc.message : PyExc → String
  | .osError m => m
  | .calledProcessError st => st
  | .otherExc m => m

/-- The effects encountered by one `export_html_wasm` call: whether
`os.makedirs(os.path.dirname(output_file), exist_ok=True)` raises, and what
`subprocess.run(cmd, capture_output=True, text=True, check=True)` does
(`none` = the renderer exits 0; `some e` = the call raises `e`, which is a
`CalledProcessError` for a non-zero exit). -/
structure ExportEnv where
  mkdirError : Option String
  runError : Option PyExc

/-- `notebook_path.replace(".py", ".html")` (line 28). -/
def output_path (notebook_path : String) : String :=
  pyReplace notebook_path ".py" ".html"

/-- `os.path.join(output_dir, output_path)` (line 39): the artifact location
under the output root (for a relative `output_path`, `os.path.join` just
interposes a slash). -/
def output_file (notebook_path output_dir : String) : String :=
  output_dir ++ "/" ++ output_path notebook_path

/-- The `try` body of `export_html_wasm` (lines 38-44): `os.makedirs`, then
`subprocess.run`, then `return True`.  An `Except.error` is an exception
raised inside the body. -/
def exportBody (env : ExportEnv) : Except PyExc Bool :=
  match env.mkdirError with
  | some m => Except.error (PyExc.osError m)
  | none =>
    match env.runError with
    | some e => Except.error e
    | none => Except.ok true

/-- The observable behaviour of one `export_html_wasm` call: printed lines,
the function outcome (`Except.error` would be an exception escaping the
function), and the artifact path written by the renderer (`some` exactly
when the renderer exited 0, having been handed `-o output_file`). -/
structure ExportOutcome where
  log : List String
  result : Except PyExc Bool
  wrote : Option String

/-- `export_html_wasm` (lines 16-51): the mode print, then the `try` body
with its two `except` clauses.  Both `except` clauses return `False`, and
every exception raised in the body derives from `Exception`, so no
exception escapes in the model either. -/
def export_html_wasm (notebook_path output_dir : String) (as_app : Bool)
    (env : ExportEnv) : ExportOutcome :=
  let opath := output_path notebook_path
  let hdr := if as_app then "Exporting " ++ notebook_path ++ " to " ++ opath ++ " as app"
    else "Exporting " ++ notebook_path ++ " to " ++ opath ++ " as notebook"
  match exportBody env with
  | Except.ok b => ⟨[hdr], Except.ok b, some (output_file notebook_path output_dir)⟩
  | Except.error (PyExc.calledProcessError st) =>
    ⟨[hdr, "Error exporting " ++ notebook_path ++ ":", st], Except.ok false, none⟩
  | Except.error e =>
    ⟨[hdr, "Unexpected error exporting " ++ notebook_path ++ ": " ++ e.message],
      Except.ok false, none⟩

/-- The outcome of loading `notebook_metadata.yml` (lines 63-73): present and
well-formed, absent (`FileNotFoundError`), or present but unreadable (any
other exception while opening or parsing). -/
inductive ConfigOutcome where
  | found (store : MetaStore)
  | missing
  | unreadable (msg : String)

/-- The metadata mapping actually used: empty unless the file loaded. -/
def configStore : ConfigOutcome → MetaStore
  | .found store => store
  | .missing => []
  | .unreadable _ => []

/-- The prints of the metadata-loading step. -/
def configLog : ConfigOutcome → List String
  | .found _ => []
  | .missing => ["Config file notebook_metadata.yml not found. Using default metadata."]
  | .unreadable m => ["Error loading config file notebook_metadata.yml: " ++ m]

/-- The effects encountered by one `generate_index` call: the config load
outcome, whether `os.makedirs(output_dir, exist_ok=True)` (line 79, outside
the `try`) raises, and whether opening or writing `index.html` (inside the
`try`, lines 81-145) raises an `IOError`. -/
structure GenEnv where
  config : ConfigOutcome
  mkdirError : Option String
  writeError : Option String

/-- The observable result of `generate_index`: the final contents of the
caller's `all_notebooks` list (the function sorts it in place at line 76,
before any filesystem access), the printed lines, and the outcome —
`Except.error` is an exception escaping the function, `Except.ok (some h)`
a normal return having written `index.html` with content `h`, and
`Except.ok none` a normal return without a complete `index.html` (the
`except IOError` branch at line 146). -/
structure GenResult where
  notebooksAfter : List String
  log : List String
  outcome : Except String (Option String)

/-- `generate_index` (lines 54-147): print, load config, sort the list in
place, `os.makedirs` (uncaught), then write the page inside `try/except
IOError`. -/
def generate_index (all_notebooks : List String) (env : GenEnv) : GenResult :=
  let store := configStore env.config
  let sorted := pySortNotebooks all_notebooks
  let logStart := "Generating index.html" :: configLog env.config
  match env.mkdirError with
  | some m => ⟨sorted, logStart, Except.error m⟩
  | none =>
    match env.writeError with
    | some m =>
      ⟨sorted, logStart ++ ["Error generating index.html: " ++ m], Except.ok none⟩
    | none => ⟨sorted, logStart, Except.ok (some (indexHtml store sorted))⟩

/-- `nb.startswith("apps/")` (line 177). -/
def startsWithAppsDir (nb : String) : Bool :=
  "apps/".data.isPrefixOf nb.data

/-- The inputs of one run of `main` (lines 150-180): the `.py` files found by
`Path(d).rglob("*.py")` for each of the two source directories (`none` when
the directory does not exist), the per-notebook export effects, the index
generation effects, and the `--output-dir` argument (default `_site`). -/
structure MainEnv where
  notebooksFiles : Option (List String)
  appsFiles : Option (List String)
  exportEnv : String → ExportEnv
  genEnv : GenEnv
  output_dir : String

/-- `all_notebooks` right after the discovery loop (lines 162-169):
`notebooks` files then `apps` files, in directory order. -/
def discoveredList (env : MainEnv) : List String :=
  env.notebooksFiles.getD [] ++ env.appsFiles.getD []

/-- The missing-directory warnings of the discovery loop (line 166). -/
def warnLog (env : MainEnv) : List String :=
  (match env.notebooksFiles with
    | none => ["Warning: Directory not found: notebooks"]
    | some _ => []) ++
  (match env.appsFiles with
    | none => ["Warning: Directory not found: apps"]
    | some _ => [])

/-- The observable result of `main`: printed lines, the notebooks for which
`export_html_wasm` was invoked and the outcome of each, the final contents
of `all_notebooks`, and the `generate_index` outcome (`none` when
`generate_index` was never called; all output-directory creation and file
writing happens inside `export_html_wasm` and `generate_index`). -/
structure MainResult where
  log : List String
  exportsRun : List String
  exportResults : List (Except PyExc Bool)
  notebooksFinal : List String
  indexOutcome : Option (Except String (Option String))

/-- `main` (lines 150-180): discover, halt on an empty list, otherwise export
each notebook sequentially (as app exactly for `apps/` paths) and generate
the index.  Named `mainRun` because Lean reserves `main` for an `IO` entry
point. -/
def mainRun (env : MainEnv) : MainResult :=
  let all := discoveredList env
  if all.isEmpty then
    { log := warnLog env ++ ["No notebooks found!"]
      exportsRun := []
      exportResults := []
      notebooksFinal := all
      indexOutcome := none }
  else
    let outs := all.map fun nb =>
      export_html_wasm nb env.output_dir (startsWithAppsDir nb) (env.exportEnv nb)
    let g := generate_index all env.genEnv
    { log := warnLog env ++ (outs.map ExportOutcome.log).flatten ++ g.log
      exportsRun := all
      exportResults := outs.map ExportOutcome.result
      notebooksFinal := g.notebooksAfter
      indexOutcome := some g.outcome }

/-- `pat` occurs nowhere in `stem ++ pat` except as the final suffix: at
every position strictly inside `stem`, `pat` is not a prefix of the rest.
This is the "the source extension is the only occurrence" side condition
under which Python's replace-all `str.replace` is plain extension
substitution. -/
def noEarlyMatch (pat stem : List Char) : Prop :=
  ∀ i, i < stem.length → pat.isPrefixOf ((stem ++ pat).drop i) = false

instance noEarlyMatchDecidable (pat stem : List Char) :
    Decidable (noEarlyMatch pat stem) :=
  Nat.decidableBallLT stem.length fun i _ => pat.isPrefixOf ((stem ++ pat).drop i) = false

/-- The strict-or-equal descending-filename relation used to show that a
stable sort of a duplicate-free-by-filename list is order-independent. -/
def strictDescByName (a b : String) : Prop :=
  (descByName a b ∧ fileName a ≠ fileName b) ∨ a = b

/-! Helper lemmas. -/

theorem string_mk_data (s : String) : String.mk s.data = s := by
  cases s
  rfl

theorem string_data_inj {s t : String} (h : s.data = t.data) : s = t := by
  cases s
  cases t
  exact congrArg String.mk (by simpa using h)

theorem char_eq_of_toNat_eq {a b : Char} (h : a.toNat = b.toNat) : a = b :=
  Char.eq_of_val_eq (UInt32.ext h)

theorem lexLe_refl (l : List Char) : lexLe l l = true := by
  induction l with
  | nil => rfl
  | cons a as ih => simp [lexLe, ih]

theorem lexLe_total (x y : List Char) : lexLe x y = true ∨ lexLe y x = true := by
  induction x generalizing y with
  | nil => exact Or.inl rfl
  | cons a as ih =>
    cases y with
    | nil => exact Or.inr rfl
    | cons b bs =>
      by_cases h1 : a.toNat < b.toNat
      · exact Or.inl (by simp [lexLe, h1])
      · by_cases h2 : b.toNat < a.toNat
        · exact Or.inr (by simp [lexLe, h2])
        · rcases ih bs with h | h
          · exact Or.inl (by simp [lexLe, h1, h2, h])
          · exact Or.inr (by simp [lexLe, h1, h2, h])

theorem lexLe_trans (x y z : List Char) (h1 : lexLe x y = true)
    (h2 : lexLe y z = true) : lexLe x z = true := by
  induction x generalizing y z with
  | nil => rfl
  | cons a as ih =>
    cases y with
    | nil => simp [lexLe] at h1
    | cons b bs =>
      cases z with
      | nil => simp [lexLe] at h2
      | cons c cs =>
        by_cases hab : a.toNat < b.toNat
        · by_cases hbc : b.toNat < c.toNat
          · simp [lexLe, show a.toNat < c.toNat by omega]
          · by_cases hcb : c.toNat < b.toNat
            · simp [lexLe, hbc, hcb] at h2
            · simp [lexLe, show a.toNat < c.toNat by omega]
        · by_cases hba : b.toNat < a.toNat
          · simp [lexLe, hab, hba] at h1
          · have h1' : lexLe as bs = true := by simpa [lexLe, hab, hba] using h1
            by_cases hbc : b.toNat < c.toNat
            · simp [lexLe, show a.toNat < c.toNat by omega]
            · by_cases hcb : c.toNat < b.toNat
              · simp [lexLe, hbc, hcb] at h2
              · have h2' : lexLe bs cs = true := by simpa [lexLe, hbc, hcb] using h2
                have hac : ¬ a.toNat < c.toNat := by omega
                have hca : ¬ c.toNat < a.toNat := by omega
                simp [lexLe, hac, hca, ih bs cs h1' h2']

theorem lexLe_antisymm (x y : List Char) (h1 : lexLe x y = true)
    (h2 : lexLe y x = true) : x = y := by
  induction x generalizing y with
  | nil =>
    cases y with
    | nil => rfl
    | cons b bs => simp [lexLe] at h2
  | cons a as ih =>
    cases y with
    | nil => simp [lexLe] at h1
    | cons b bs =>
      by_cases hab : a.toNat < b.toNat
      · simp [lexLe, hab, show ¬ b.toNat < a.toNat by omega] at h2
      · by_cases hba : b.toNat < a.toNat
        · simp [lexLe, hab, hba] at h1
        · have h1' : lexLe as bs = true := by simpa [lexLe, hab, hba] using h1
          have h2' : lexLe bs as = true := by simpa [lexLe, hba, hab] using h2
          rw [char_eq_of_toNat_eq (show a.toNat = b.toNat by omega), ih bs h1' h2']

theorem descByName_isTotal : IsTotal String descByName :=
  ⟨fun x y => Or.symm (lexLe_total (fileName x).data (fileName y).data)⟩

theorem descByName_isTrans : IsTrans String descByName :=
  ⟨fun _ _ _ h1 h2 => lexLe_trans _ _ _ h2 h1⟩

theorem fileName_eq_of_descByName {x y : String} (h1 : descByName x y)
    (h2 : descByName y x) : fileName x = fileName y :=
  string_data_inj (lexLe_antisymm _ _ h2 h1)

theorem pySortNotebooks_perm (l : List String) : (pySortNotebooks l).Perm l :=
  List.perm_insertionSort descByName l

theorem pySortNotebooks_pairwise (l : List String) :
    (pySortNotebooks l).Pairwise descByName := by
  haveI := descByName_isTotal
  haveI := descByName_isTrans
  exact List.sorted_insertionSort descByName l

theorem pySortNotebooks_eq_of_perm_of_distinct (l1 l2 : List String)
    (hp : l1.Perm l2)
    (hd : l1.Pairwise fun a b => fileName a ≠ fileName b) :
    pySortNotebooks l1 = pySortNotebooks l2 := by
  have perm1 := pySortNotebooks_perm l1
  have perm2 := pySortNotebooks_perm l2
  have hp' : (pySortNotebooks l1).Perm (pySortNotebooks l2) :=
    perm1.trans (hp.trans perm2.symm)
  have hsym : ∀ {x y : String}, fileName x ≠ fileName y → fileName y ≠ fileName x :=
    fun h => h.symm
  have hd1 : (pySortNotebooks l1).Pairwise fun a b => fileName a ≠ fileName b :=
    (perm1.pairwise_iff hsym).mpr hd
  have hd2 : (pySortNotebooks l2).Pairwise fun a b => fileName a ≠ fileName b :=
    (perm2.pairwise_iff hsym).mpr ((hp.pairwise_iff hsym).mp hd)
  haveI : IsAntisymm String strictDescByName := by
    constructor
    intro a b h1 h2
    rcases h1 with ⟨hle1, hne1⟩ | he
    · rcases h2 with ⟨hle2, _⟩ | he2
      · exact absurd (fileName_eq_of_descByName hle1 hle2) hne1
      · exact he2.symm
    · exact he
  have hs1 : List.Sorted strictDescByName (pySortNotebooks l1) :=
    ((pySortNotebooks_pairwise l1).and hd1).imp fun h => Or.inl h
  have hs2 : List.Sorted strictDescByName (pySortNotebooks l2) :=
    ((pySortNotebooks_pairwise l2).and hd2).imp fun h => Or.inl h
  exact List.eq_of_perm_of_sorted hp' hs1 hs2

theorem pyRepAux_of_length_le (pat rep : List Char) (l : List Char) :
    ∀ k, l.length ≤ k → pyRepAux pat rep k l = [] := by
  induction l with
  | nil =>
    intro k _
    cases k <;> rfl
  | cons c cs ih =>
    intro k hk
    cases k with
    | zero => simp at hk
    | succ k' => simpa [pyRepAux] using ih k' (by simpa using hk)

theorem pyRepAux_append (pat rep : List Char) (hpat : pat ≠ []) :
    ∀ stem : List Char,
      (∀ i, i < stem.length → pat.isPrefixOf ((stem ++ pat).drop i) = false) →
      pyRepAux pat rep 0 (stem ++ pat) = stem ++ rep := by
  intro stem
  induction stem with
  | nil =>
    intro _
    obtain ⟨p, ps, rfl⟩ : ∃ p ps, pat = p :: ps := by
      cases pat with
      | nil => exact absurd rfl hpat
      | cons p ps => exact ⟨p, ps, rfl⟩
    have hpre : (p :: ps).isPrefixOf (p :: ps) = true :=
      List.isPrefixOf_iff_prefix.mpr (List.prefix_refl _)
    simp [pyRepAux, hpre, pyRepAux_of_length_le (p :: ps) rep ps ps.length (le_refl _)]
  | cons c stem' ih =>
    intro H
    have h0 : pat.isPrefixOf (c :: (stem' ++ pat)) = false := by
      simpa using H 0 (by simp)
    have H' : ∀ i, i < stem'.length → pat.isPrefixOf ((stem' ++ pat).drop i) = false := by
      intro i hi
      have := H (i + 1) (by simpa using Nat.succ_lt_succ hi)
      simpa [List.drop_succ_cons] using this
    simp [pyRepAux, h0, ih H']

theorem pyReplace_extension (stem pat rep : String) (hpat : pat.data ≠ [])
    (H : noEarlyMatch pat.data stem.data) :
    pyReplace (stem ++ pat) pat rep = stem ++ rep := by
  have step : pyRepAux pat.data rep.data 0 (stem ++ pat).data = stem.data ++ rep.data := by
    rw [String.data_append]
    exact pyRepAux_append pat.data rep.data hpat stem.data H
  calc pyReplace (stem ++ pat) pat rep
      = String.mk (stem.data ++ rep.data) := congrArg String.mk step
    _ = String.mk ((stem ++ rep).data) := by rw [String.data_append]
    _ = stem ++ rep := string_mk_data _

/-! Claim theorems. -/

/-- C10: `generate_index` mutates its `all_notebooks` argument in place: after
any call (even one that raises while creating the output directory, and
independently of metadata or write outcomes), the caller's list holds the
permutation of its previous contents that is sorted in descending order by
filename — the sort at line 76 is a side effect of index generation, not an
operation of the orchestrator. -/
theorem c10_generate_index_sorts_callers_list (l : List String) (env : GenEnv) :
    (generate_index l env).notebooksAfter = pySortNotebooks l ∧
    (pySortNotebooks l).Perm l ∧
    (pySortNotebooks l).Pairwise descByName := by
  refine ⟨?_, pySortNotebooks_perm l, pySortNotebooks_pairwise l⟩
  obtain ⟨c, mk, we⟩ := env
  cases mk with
  | some m => rfl
  | none =>
    cases we with
    | some m => rfl
    | none => rfl

/-- C8 (amended): an I/O error raised while opening or writing `index.html`
(inside the `try` at lines 81-145) is caught and logged by `generate_index`,
which then returns normally; but an I/O error raised by
`os.makedirs(output_dir)` (line 79, outside the `try`) propagates out of
`generate_index` as an uncaught exception. -/
theorem c8_write_error_caught_mkdir_error_propagates (l : List String)
    (c : ConfigOutcome) (m : String) (w : Option String) :
    (generate_index l ⟨c, some m, w⟩).outcome = Except.error m ∧
    (generate_index l ⟨c, none, some m⟩).outcome = Except.ok none ∧
    ("Error generating index.html: " ++ m) ∈ (generate_index l ⟨c, none, some m⟩).log ∧
    (generate_index l ⟨c, none, none⟩).outcome
      = Except.ok (some (indexHtml (configStore c) (pySortNotebooks l))) := by
  refine ⟨rfl, rfl, ?_, rfl⟩
  simp [generate_index]

/-- C8 counterexample: the claim says an I/O error while creating the output
directory is caught and logged by the index generator and does not propagate
as an uncaught exception; but `os.makedirs(output_dir)` sits outside the
`try`, so on this concrete input the error escapes `generate_index`
(`outcome` is an `Except.error`, not a normal return). -/
theorem c8_counterexample_mkdir_error_escapes :
    (generate_index ["notebooks/2025-03-15-blog_intro.py"]
        ⟨ConfigOutcome.missing, some "PermissionError: _site", none⟩).outcome
      = Except.error "PermissionError: _site" ∧
    ((generate_index ["notebooks/2025-03-15-blog_intro.py"]
        ⟨ConfigOutcome.missing, some "PermissionError: _site", none⟩).outcome).isOk
      = false :=
  ⟨rfl, rfl⟩

/-- C6 (amended): a failure of `os.makedirs` on the output path's parent
directories is raised inside the `try` of `export_html_wasm` and caught by
the generic `except Exception` clause: the exporter returns a failed
`ExportResult` (`False`) with the diagnostic printed, writes nothing, and
propagates no exception. -/
theorem c6_mkdir_failure_reported_as_failed_export (nb out_dir : String)
    (app : Bool) (m : String) (run : Option PyExc) :
    (export_html_wasm nb out_dir app ⟨some m, run⟩).result = Except.ok false ∧
    ("Unexpected error exporting " ++ nb ++ ": " ++ m)
      ∈ (export_html_wasm nb out_dir app ⟨some m, run⟩).log ∧
    (export_html_wasm nb out_dir app ⟨some m, run⟩).wrote = none := by
  refine ⟨rfl, ?_, rfl⟩
  cases app <;> simp [export_html_wasm, exportBody, PyExc.message]

/-- C6 counterexample: the claim says a failure to create the output path's
parent directories is propagated out of the exporter as an I/O error rather
than reported as a mere failed `ExportResult`; on this concrete input the
exporter instead returns normally with a failed result (`Except.ok false`,
not an `Except.error`). -/
theorem c6_counterexample_mkdir_failure_not_propagated :
    (export_html_wasm "notebooks/2025-03-15-blog_intro.py" "_site" false
        ⟨some "EACCES", none⟩).result = Except.ok false ∧
    ((export_html_wasm "notebooks/2025-03-15-blog_intro.py" "_site" false
        ⟨some "EACCES", none⟩).result).isOk = true :=
  ⟨rfl, rfl⟩

/-- C7 (amended): when the discovery loop finds zero documents, `main` prints
the missing-directory warnings followed by the report `No notebooks found!`
and returns at line 173: no export is invoked and `generate_index` is never
called, so (all directory creation and file writing happening inside those
two functions) no output directory is created and no output file is written.
The wording of the report is `No notebooks found!`, not the claimed
`no documents found`. -/
theorem c7_zero_documents_halts_before_output (env : MainEnv)
    (h : discoveredList env = []) :
    (mainRun env).log = warnLog env ++ ["No notebooks found!"] ∧
    (mainRun env).exportsRun = [] ∧
    (mainRun env).exportResults = [] ∧
    (mainRun env).indexOutcome = none := by
  refine ⟨?_, ?_, ?_, ?_⟩ <;> simp [mainRun, h]

/-- C7 witness: the amended theorem applied to the concrete run in which both
source directories are missing. -/
theorem c7_zero_documents_halts_before_output_witness :
    (mainRun ⟨none, none, fun _ => ⟨none, none⟩,
        ⟨ConfigOutcome.missing, none, none⟩, "_site"⟩).exportsRun = [] ∧
    (mainRun ⟨none, none, fun _ => ⟨none, none⟩,
        ⟨ConfigOutcome.missing, none, none⟩, "_site"⟩).indexOutcome = none :=
  ⟨(c7_zero_documents_halts_before_output
      ⟨none, none, fun _ => ⟨none, none⟩, ⟨ConfigOutcome.missing, none, none⟩, "_site"⟩
      (by decide)).2.1,
    (c7_zero_documents_halts_before_output
      ⟨none, none, fun _ => ⟨none, none⟩, ⟨ConfigOutcome.missing, none, none⟩, "_site"⟩
      (by decide)).2.2.2⟩

/-- C7 counterexample: on the concrete zero-document run the printed report
is `No notebooks found!`; no printed line contains the claimed text
`no documents found`. -/
theorem c7_counterexample_report_wording :
    (mainRun ⟨none, none, fun _ => ⟨none, none⟩,
        ⟨ConfigOutcome.missing, none, none⟩, "_site"⟩).log
      = ["Warning: Directory not found: notebooks",
          "Warning: Directory not found: apps", "No notebooks found!"] ∧
    ¬ ∃ s ∈ (mainRun ⟨none, none, fun _ => ⟨none, none⟩,
        ⟨ConfigOutcome.missing, none, none⟩, "_site"⟩).log,
      "no documents found".data <:+: s.data := by
  refine ⟨rfl, ?_⟩
  decide

/-- C5: a failing export — a non-zero renderer exit (`CalledProcessError`)
or any other exception raised inside the `try` — is caught by the `except`
clauses of `export_html_wasm` and turned into a failed result (`False`); no
exception ever escapes the exporter for any environment, `main` still
invokes the exporter on every discovered document, the index still gets one
card per document, and for a non-zero exit the captured stderr is printed. -/
theorem c5_export_failure_isolated (nb out_dir : String) (app : Bool)
    (env : ExportEnv) (e : PyExc) (hrun : env.runError = some e) :
    (export_html_wasm nb out_dir app env).result = Except.ok false ∧
    (∀ env2 : ExportEnv, ∃ b, (export_html_wasm nb out_dir app env2).result = Except.ok b) ∧
    (∀ menv : MainEnv, discoveredList menv ≠ [] →
      (mainRun menv).exportsRun = discoveredList menv ∧
      (indexCards (configStore menv.genEnv.config)
          (pySortNotebooks (discoveredList menv))).length
        = (discoveredList menv).length) ∧
    (∀ st, env.mkdirError = none → env.runError = some (PyExc.calledProcessError st) →
      st ∈ (export_html_wasm nb out_dir app env).log) := by
  obtain ⟨mk, run⟩ := env
  refine ⟨?_, ?_, ?_, ?_⟩
  · cases mk with
    | some m => rfl
    | none =>
      cases hrun
      cases e <;> rfl
  · intro env2
    obtain ⟨mk2, run2⟩ := env2
    cases mk2 with
    | some m => exact ⟨false, rfl⟩
    | none =>
      cases run2 with
      | none => exact ⟨true, rfl⟩
      | some e2 => cases e2 <;> exact ⟨false, rfl⟩
  · intro menv hne
    constructor
    · simp [mainRun, hne]
    · calc (indexCards (configStore menv.genEnv.config)
            (pySortNotebooks (discoveredList menv))).length
          = (pySortNotebooks (discoveredList menv)).length := List.length_map _ _
        _ = (discoveredList menv).length := (pySortNotebooks_perm _).length_eq
  · intro st hmk hrun2
    cases hmk
    cases hrun2
    cases app <;> simp [export_html_wasm, exportBody]

/-- C5 witness: the theorem applied to a concrete renderer failure. -/
theorem c5_export_failure_isolated_witness :
    (export_html_wasm "notebooks/2025-03-15-blog_intro.py" "_site" false
        ⟨none, some (PyExc.calledProcessError "marimo: error")⟩).result
      = Except.ok false :=
  (c5_export_failure_isolated "notebooks/2025-03-15-blog_intro.py" "_site" false
    ⟨none, some (PyExc.calledProcessError "marimo: error")⟩
    (PyExc.calledProcessError "marimo: error") rfl).1

/-- C4 counterexample: the claim says the output path and link target are the
document path with its source extension replaced and no other part changed;
but `str.replace` substitutes every occurrence of `.py`, so the discoverable
document `apps/a.py.py` maps to `apps/a.html.html` instead of the claimed
`apps/a.py.html`. -/
theorem c4_counterexample_replace_all :
    output_path "apps/a.py.py" = "apps/a.html.html" ∧
    cardLink "apps/a.py.py" = "apps/a.html.html" ∧
    ("apps/a.html.html" : String) ≠ "apps/a.py.html" := by
  refine ⟨rfl, rfl, ?_⟩
  decide

/-- C4 (amended): the output path and the card link target are both the
document path with every occurrence of the substring `.py` replaced by
`.html`; for a document path in which `.py` occurs only as the final
extension this is exactly extension substitution with the rest of the path
unchanged, the artifact sits at that path under the output root, and the
link target always equals the artifact path relative to the output root. -/
theorem c4_output_path_extension_substitution (stem out_dir : String)
    (hs : noEarlyMatch ".py".data stem.data) :
    output_path (stem ++ ".py") = stem ++ ".html" ∧
    cardLink (stem ++ ".py") = stem ++ ".html" ∧
    output_file (stem ++ ".py") out_dir = out_dir ++ "/" ++ (stem ++ ".html") ∧
    (∀ env : ExportEnv, env.mkdirError = none → env.runError = none →
      ∀ app, (export_html_wasm (stem ++ ".py") out_dir app env).wrote
        = some (output_file (stem ++ ".py") out_dir)) ∧
    (∀ nb : String, cardLink nb = output_path nb) := by
  have hsub : pyReplace (stem ++ ".py") ".py" ".html" = stem ++ ".html" :=
    pyReplace_extension stem ".py" ".html" (by decide) hs
  refine ⟨hsub, hsub, ?_, ?_, fun nb => rfl⟩
  · show out_dir ++ "/" ++ output_path (stem ++ ".py") = out_dir ++ "/" ++ (stem ++ ".html")
    rw [show output_path (stem ++ ".py") = stem ++ ".html" from hsub]
  · intro env hmk hrun app
    obtain ⟨mk, run⟩ := env
    cases hmk
    cases hrun
    cases app <;> rfl

/-- C4 witness: the amended theorem applied to a concrete document path whose
only `.py` occurrence is the extension. -/
theorem c4_output_path_extension_substitution_witness :
    output_path ("apps/2025-03-15-blog_intro" ++ ".py")
      = "apps/2025-03-15-blog_intro" ++ ".html" :=
  (c4_output_path_extension_substitution "apps/2025-03-15-blog_intro" "_site"
    (by decide)).1

/-- C3 counterexample: the claim says every document's display key is the
filename with the extension removed (and a date prefix stripped); but
`str.replace(".py", "")` removes every occurrence of `.py`, so the
discoverable document `apps/2025-03-15-my.pyth.py` gets display key `myth`
instead of the claimed `my.pyth`. -/
theorem c3_counterexample_display_key :
    displayKey "apps/2025-03-15-my.pyth.py" = "myth" ∧
    ("myth" : String) ≠ "my.pyth" := by
  refine ⟨by decide, by decide⟩

/-- C3 (amended): the display key is the filename with every occurrence of
the substring `.py` removed and one leading `YYYY-MM-DD-` prefix stripped
(extension removal exactly when `.py` occurs only as the extension), and
metadata resolution for any key never fails: the title is the configured
one if present, else the key with underscores as spaces and words
capitalized; description and image are the configured values if present,
else empty.  In particular `2025-03-15-blog_intro.py` yields display key
`blog_intro` and, absent metadata, title `Blog Intro`. -/
theorem c3_display_key_and_metadata_defaults (stem : String)
    (hs : noEarlyMatch ".py".data stem.data)
    (nb : String) (hfn : fileName nb = stem ++ ".py") :
    displayKey nb = stripDate stem ∧
    (∀ (store : MetaStore) (key : String),
      (store.lookup key = none →
        cardTitle store key = pyTitle (pyReplace key "_" " ") ∧
        cardDescription store key = "" ∧ cardImage store key = "") ∧
      ∀ m : NotebookMeta, store.lookup key = some m →
        cardTitle store key = m.title.getD (pyTitle (pyReplace key "_" " ")) ∧
        cardDescription store key = m.description.getD "" ∧
        cardImage store key = m.image.getD "") ∧
    displayKey "apps/2025-03-15-blog_intro.py" = "blog_intro" ∧
    cardTitle [] "blog_intro" = "Blog Intro" := by
  refine ⟨?_, ?_, by decide, by decide⟩
  · have hrem : pyReplace (stem ++ ".py") ".py" "" = stem ++ "" :=
      pyReplace_extension stem ".py" "" (by decide) hs
    have hempty : stem ++ "" = stem := string_data_inj (by simp [String.data_append])
    rw [displayKey, nb_filename, hfn, hrem, hempty]
  · intro store key
    constructor
    · intro hnone
      simp [cardTitle, cardDescription, cardImage, lookupMeta, hnone]
    · intro m hsome
      simp [cardTitle, cardDescription, cardImage, lookupMeta, hsome]

/-- C3 witness: the amended theorem applied to the concrete document
`apps/2025-03-15-blog_intro.py`. -/
theorem c3_display_key_and_metadata_defaults_witness :
    displayKey "apps/2025-03-15-blog_intro.py" = stripDate "2025-03-15-blog_intro" :=
  (c3_display_key_and_metadata_defaults "2025-03-15-blog_intro" (by decide)
    "apps/2025-03-15-blog_intro.py" (by decide)).1

/-- C1: whatever the per-document export outcomes (the export environment is
arbitrary), a run over a non-empty discovered document list writes an index
whose card list is exactly one card per document — the cards are the image
of the sorted document list under `cardHtml`, so there are `|D|` of them —
and every card opens with the link to the document's (possibly never
written) artifact. -/
theorem c1_one_card_per_document (env : MainEnv)
    (hD : discoveredList env ≠ [])
    (hmk : env.genEnv.mkdirError = none) (hwr : env.genEnv.writeError = none) :
    (mainRun env).indexOutcome
      = some (Except.ok (some (indexHtml (configStore env.genEnv.config)
          (pySortNotebooks (discoveredList env))))) ∧
    indexCards (configStore env.genEnv.config) (pySortNotebooks (discoveredList env))
      = (pySortNotebooks (discoveredList env)).map
          (cardHtml (configStore env.genEnv.config)) ∧
    (indexCards (configStore env.genEnv.config)
        (pySortNotebooks (discoveredList env))).length = (discoveredList env).length ∧
    ∀ d : String, cardHtml (configStore env.genEnv.config) d
      = cardOpen d ++ cardBody (configStore env.genEnv.config) d := by
  have hF : (discoveredList env).isEmpty = false := by
    simpa [List.isEmpty_iff] using hD
  refine ⟨?_, rfl, ?_, fun d => rfl⟩
  · simp [mainRun, hF, generate_index, hmk, hwr]
  · calc (indexCards (configStore env.genEnv.config)
          (pySortNotebooks (discoveredList env))).length
        = (pySortNotebooks (discoveredList env)).length := List.length_map _ _
      _ = (discoveredList env).length := (pySortNotebooks_perm _).length_eq

/-- C1 witness: a run with a single document whose export fails still writes
an index for the full (one-element) document list. -/
theorem c1_one_card_per_document_witness :
    (mainRun ⟨some ["notebooks/2025-03-15-blog_intro.py"], none,
        fun _ => ⟨none, some (PyExc.otherExc "renderer crash")⟩,
        ⟨ConfigOutcome.missing, none, none⟩, "_site"⟩).indexOutcome
      = some (Except.ok (some (indexHtml []
          (pySortNotebooks ["notebooks/2025-03-15-blog_intro.py"])))) :=
  (c1_one_card_per_document
    ⟨some ["notebooks/2025-03-15-blog_intro.py"], none,
      fun _ => ⟨none, some (PyExc.otherExc "renderer crash")⟩,
      ⟨ConfigOutcome.missing, none, none⟩, "_site"⟩
    (by decide) rfl rfl).1

/-- C2: in the sorted list handed to the card loop (and hence in the card
sequence, which is its image under `cardHtml` in order), a document whose
filename is strictly greater than another's — Python `>` on strings, i.e.
its filename is not `lexLe` the other's — occupies a strictly earlier
position: descending lexicographic order of filenames, final path component
only. -/
theorem c2_cards_descending_by_filename (l : List String)
    (i j : Fin (pySortNotebooks l).length)
    (h : lexLe (fileName ((pySortNotebooks l).get i)).data
        (fileName ((pySortNotebooks l).get j)).data = false) :
    (i : Nat) < (j : Nat) := by
  by_contra hc
  have hji : (j : Nat) ≤ (i : Nat) := Nat.le_of_not_lt hc
  rcases Nat.eq_or_lt_of_le hji with heq | hlt
  · have hij : j = i := Fin.ext heq
    subst hij
    simp [lexLe_refl] at h
  · have hp := List.pairwise_iff_get.mp (pySortNotebooks_pairwise l) j i hlt
    simp only [descByName, List.get_eq_getElem] at hp
    simp only [List.get_eq_getElem] at h
    rw [hp] at h
    exact Bool.noConfusion h

/-- C2 witness: for the two example documents, the `2025-03-20-b` filename is
strictly greater than `2025-03-15-a`, and its card position (0) is strictly
earlier (the theorem applied at positions 0 and 1 of the sorted list). -/
theorem c2_cards_descending_by_filename_witness :
    lexLe (fileName ((pySortNotebooks
        ["notebooks/2025-03-15-a.py", "apps/2025-03-20-b.py"]).get ⟨0, by decide⟩)).data
      (fileName ((pySortNotebooks
        ["notebooks/2025-03-15-a.py", "apps/2025-03-20-b.py"]).get ⟨1, by decide⟩)).data
      = false ∧
    (0 : Nat) < 1 :=
  ⟨by decide,
    c2_cards_descending_by_filename
      ["notebooks/2025-03-15-a.py", "apps/2025-03-20-b.py"]
      ⟨0, by decide⟩ ⟨1, by decide⟩ (by decide)⟩

/-- C9 (amended): index generation is deterministic over the discovery order
provided the discovered documents have pairwise distinct filenames: for any
two discovery orders of the same document set (and the same metadata and
filesystem outcomes), the sorted list — and with it the whole
`generate_index` result, including the `index.html` content — is identical.
(With duplicate filenames the stable sort preserves the discovery order of
the tied documents, so the content can differ; see the counterexample.) -/
theorem c9_deterministic_for_distinct_filenames (l1 l2 : List String)
    (env : GenEnv) (hp : l1.Perm l2)
    (hd : l1.Pairwise fun a b => fileName a ≠ fileName b) :
    pySortNotebooks l1 = pySortNotebooks l2 ∧
    generate_index l1 env = generate_index l2 env := by
  have hs := pySortNotebooks_eq_of_perm_of_distinct l1 l2 hp hd
  refine ⟨hs, ?_⟩
  unfold generate_index
  rw [hs]

/-- C9 witness: the theorem applied to the two discovery orders of a concrete
two-document set with distinct filenames. -/
theorem c9_deterministic_for_distinct_filenames_witness :
    pySortNotebooks ["notebooks/2025-03-15-a.py", "apps/2025-03-20-b.py"]
      = pySortNotebooks ["apps/2025-03-20-b.py", "notebooks/2025-03-15-a.py"] :=
  (c9_deterministic_for_distinct_filenames
    ["notebooks/2025-03-15-a.py", "apps/2025-03-20-b.py"]
    ["apps/2025-03-20-b.py", "notebooks/2025-03-15-a.py"]
    ⟨ConfigOutcome.missing, none, none⟩
    (List.Perm.swap "apps/2025-03-20-b.py" "notebooks/2025-03-15-a.py" [])
    (by decide)).1

set_option maxRecDepth 40000

/-- C9 counterexample: the claim quantifies over any discovery order of the
same document set; for the set containing `notebooks/x.py` and
`notebooks/sub/x.py` (equal filenames, distinct paths) the two discovery
orders are permutations of each other, yet the stable descending sort keeps
each discovery order, so the two runs write different `index.html` bytes
(the card links appear in a different order). -/
theorem c9_counterexample_duplicate_filenames :
    (["notebooks/x.py", "notebooks/sub/x.py"] : List String).Perm
        ["notebooks/sub/x.py", "notebooks/x.py"] ∧
    (generate_index ["notebooks/x.py", "notebooks/sub/x.py"]
        ⟨ConfigOutcome.missing, none, none⟩).outcome
      = Except.ok (some (indexHtml []
          (pySortNotebooks ["notebooks/x.py", "notebooks/sub/x.py"]))) ∧
    indexHtml [] (pySortNotebooks ["notebooks/x.py", "notebooks/sub/x.py"])
      ≠ indexHtml [] (pySortNotebooks ["notebooks/sub/x.py", "notebooks/x.py"]) := by
  refine ⟨List.Perm.swap "notebooks/sub/x.py" "notebooks/x.py" [], rfl, ?_⟩
  decide
